import Mathlib

/-!
Verification of `whatHappenToday/app.py`: a single-file Streamlit application
that turns a chat transcript into a structured post-mortem report by one call
to a remote text-generation service.

The embedding below models, faithfully to the source:
  * the fixed prompt template `prompt_template` and its `{dialogue}`
    substitution slot (performed by `ChatPromptTemplate` / `chain.invoke`);
  * the request parameters of `ChatOpenAI(temperature=0.1, model_name="gpt-4o-mini")`;
  * `generate_summary`, which calls the remote chain and either returns the
    response's text entry (with a fixed fallback when the entry is missing)
    or, on any exception, shows an error banner and returns `None`;
  * `check_api_key`, which stops the script when `os.getenv("OPENAI_API_KEY")`
    is falsy (absent, or set to the empty string);
  * the seeding of the input area from `conversation_example.txt`, with a
    placeholder when the file is missing;
  * the button handler in `main`, which warns on blank input without calling
    out, and otherwise stores either the truthy result of `generate_summary`
    or a fixed failure message into the session `summary`, which is what the
    right-hand pane renders.

The remote service is a parameter: a function from the issued request to an
outcome (an exception with a message, or a response whose `text` entry may be
absent).  Python `None` is `Option.none`; Python string truthiness is
emptiness testing.
-/

namespace WhatHappenToday

/-- The five section headers the template demands, in source order. -/
def header1 : String := "事件概述"

/-- Section header 2 of the template. -/
def header2 : String := "问题时间线"

/-- Section header 3 of the template. -/
def header3 : String := "根本原因"

/-- Section header 4 of the template. -/
def header4 : String := "解决方案"

/-- Section header 5 of the template. -/
def header5 : String := "总结与反思"

/-- Text of `prompt_template` from its opening up to (excluding) the first
section header `事件概述`. -/
def prompt_template_p0 : String := "\n    你是一名顶级的项目经理和资深技术架构师。你的任务是专业、深入地分析以下团队对话记录。\n    请根据对话内容，以结构化、时间线清晰的格式，生成一份完整的事件复盘报告。\n\n    你的报告必须包含以下部分，并严格遵循要求：\n\n    ### 1. "

/-- Text of `prompt_template` between headers 1 and 2. -/
def prompt_template_p1 : String := "\n    用一句话高度概括整个事件的核心内容。\n\n    ### 2. "

/-- Text of `prompt_template` between headers 2 and 3. -/
def prompt_template_p2 : String := " (Timeline)\n    严格按照时间顺序，简洁列出每个关键且重要节点的人物和行为。\n    - **10:00 AM (小李):** 发现并报告了什么问题（附上关键日志）。\n    - **10:02~10:05 AM (老王):** 提出了初步的猜测。给出了具体的排查指令（如 `top` 命令）。\n    - **10:08 AM (小李):** 执行指令并反馈了什么关键信息（如 `top` 截图内容）。\n    - **...以此类推，直到问题解决。**\n\n    ### 3. "

/-- Text of `prompt_template` between headers 3 and 4. -/
def prompt_template_p3 : String := " (Root Cause Analysis)\n    一句话清晰、准确地指出导致问题的技术根本原因。\n\n    ### 4. "

/-- Text of `prompt_template` between headers 4 and 5. -/
def prompt_template_p4 : String := "\n    描述最终采用的技术解决方案以及由谁完成。\n\n    ### 5. "

/-- Text of `prompt_template` between header 5 and the `\x7bdialogue\x7d` slot. -/
def prompt_template_p5 : String := "\n    一句话提炼出本次事件的关键教训，以及未来可以如何改进以避免类似问题。\n    请确保你的报告完全基于以下提供的对话原文，保持客观，不要添加任何对话中未提及的信息。\n    请使用 Markdown 格式进行输出，确保格式清晰美观。不出现代码块，用空格+斜体代替。\n\n    ---\n    【对话记录原文】\n    "

/-- Text of `prompt_template` after the `\x7bdialogue\x7d` slot. -/
def prompt_template_suffix : String := "\n    ---\n    "

/-- Everything of `prompt_template` before the `\x7bdialogue\x7d` slot.
Concatenating the pieces in source order reproduces the template literal of
`generate_summary` exactly. -/
def prompt_template_before : String :=
  prompt_template_p0 ++ header1 ++ prompt_template_p1 ++ header2 ++ prompt_template_p2 ++
    header3 ++ prompt_template_p3 ++ header4 ++ prompt_template_p4 ++ header5 ++
    prompt_template_p5

/-- The Prompt Builder: `ChatPromptTemplate.from_template(prompt_template)`
formatted with the dialogue, as performed inside `chain.invoke`.  Python
`str.format` substitutes the transcript verbatim into the single slot. -/
def format_prompt (dialogue : String) : String :=
  prompt_template_before ++ dialogue ++ prompt_template_suffix

/-- The request issued to the remote service: the parameters of
`ChatOpenAI(temperature=0.1, model_name="gpt-4o-mini")` plus the formatted
prompt.  The temperature 0.1 is the rational 1/10. -/
structure LLMRequest where
  model_name : String
  temperature : ℚ
  prompt : String
deriving DecidableEq, Repr

/-- The request `chain.invoke` sends for a given `dialogue_text`. -/
def mkRequest (dialogue_text : String) : LLMRequest :=
  { model_name := "gpt-4o-mini", temperature := 1/10, prompt := format_prompt dialogue_text }

/-- Outcome of the remote call: it raises an exception (carrying a message),
or it returns a response dict whose optional `text` entry is `text?`
(`response.get` finds no `text` key when `text?` is `none`). -/
inductive ServiceOutcome where
  | raises (e : String)
  | returns (text? : Option String)
deriving DecidableEq, Repr

/-- The default of `response.get('text', '抱歉，未能生成报告。')`. -/
def fallback_text : String := "抱歉，未能生成报告。"

/-- `generate_summary`: runs the chain on `dialogue_text`; on success returns
`response.get('text', fallback_text)`, on any exception returns `None`
(after showing an error banner). -/
def generate_summary (svc : LLMRequest → ServiceOutcome) (dialogue_text : String) :
    Option String :=
  match svc (mkRequest dialogue_text) with
  | ServiceOutcome.returns text? => some (text?.getD fallback_text)
  | ServiceOutcome.raises _ => none

/-- `check_api_key`: `True` means the script halts (`st.stop`), which happens
exactly when `os.getenv("OPENAI_API_KEY")` is falsy: the variable is absent
(`none`) or set to the empty string. -/
def check_api_key (env : Option String) : Bool :=
  match env with
  | none => true
  | some v => v = ""

/-- Placeholder used when `conversation_example.txt` is missing. -/
def missing_example_msg : String := "示例文件 (conversation_example.txt) 未找到。"

/-- The value seeding the input text area: the file content when the file
exists, the placeholder when opening raises `FileNotFoundError`. -/
def example_text (file : Option String) : String :=
  match file with
  | some content => content
  | none => missing_example_msg

/-- A whitespace character for Python `str.strip()` with no arguments:
CPython strips exactly the Unicode whitespace code points
0x09–0x0d, 0x1c–0x1f, 0x20, 0x85, 0xa0, 0x1680, 0x2000–0x200a,
0x2028, 0x2029, 0x202f, 0x205f and 0x3000. -/
def py_isspace (c : Char) : Bool :=
  decide ((0x09 ≤ c.toNat ∧ c.toNat ≤ 0x0d) ∨
    (0x1c ≤ c.toNat ∧ c.toNat ≤ 0x1f) ∨
    c.toNat = 0x20 ∨ c.toNat = 0x85 ∨ c.toNat = 0xa0 ∨ c.toNat = 0x1680 ∨
    (0x2000 ≤ c.toNat ∧ c.toNat ≤ 0x200a) ∨
    c.toNat = 0x2028 ∨ c.toNat = 0x2029 ∨ c.toNat = 0x202f ∨
    c.toNat = 0x205f ∨ c.toNat = 0x3000)

/-- Python `dialogue_input.strip()`: the input without its leading and
trailing whitespace characters. -/
def py_strip (s : String) : String :=
  String.mk (((s.data.dropWhile py_isspace).reverse.dropWhile py_isspace).reverse)

/-- The validation warning `st.warning("Please input chat~")`. -/
def warn_msg : String := "Please input chat~"

/-- The failure message stored when `generate_summary` returns a falsy value. -/
def fail_msg : String := "Report generation failed, check the API Key or network."

/-- Initial session value of `st.session_state.summary`. -/
def initial_summary : String := "empty..."

/-- Observable result of one press of the "Start Now" button: the session
`summary` afterwards (which the right pane renders via `st.markdown`), the
validation warning if one was shown, and the list of outbound requests made. -/
structure ClickResult where
  summary : String
  warning? : Option String
  requests : List LLMRequest
deriving DecidableEq, Repr

/-- The button handler in `main`: if the stripped input is empty, warn and do
nothing else; otherwise call `generate_summary` once and store its result if
truthy (a non-empty string), else store `fail_msg`. -/
def handle_click (svc : LLMRequest → ServiceOutcome) (dialogue_input : String)
    (summary0 : String) : ClickResult :=
  if py_strip dialogue_input = "" then
    { summary := summary0, warning? := some warn_msg, requests := [] }
  else
    { summary :=
        match generate_summary svc dialogue_input with
        | some s => if s = "" then fail_msg else s
        | none => fail_msg
    , warning? := none
    , requests := [mkRequest dialogue_input] }

/-- A mocked service that always raises an exception with message `e`. -/
def svc_raises (e : String) : LLMRequest → ServiceOutcome :=
  fun _ => ServiceOutcome.raises e

/-- A mocked service that always returns a response whose `text` entry is
`text?`. -/
def svc_returns (text? : Option String) : LLMRequest → ServiceOutcome :=
  fun _ => ServiceOutcome.returns text?

/-- The transcript of end-to-end scenario 1 of the specification. -/
def scenario1 : String :=
  "10:00 AM Li reports latency spike. 10:05 AM Wang suggests checking CPU. 10:10 AM Li confirms CPU at 100%. 10:15 AM Wang restarts service, latency normal."

/-- A fixed Markdown string standing for a mocked successful generation. -/
def mock_markdown : String := "# 事件复盘报告\n一切正常。"

/-- C1: for every non-blank transcript `T`, the prompt produced by the Prompt
Builder contains `T` verbatim and contains the five fixed section headers
事件概述, 问题时间线, 根本原因, 解决方案, 总结与反思 in that fixed order. -/
theorem C1_prompt_contains_transcript_and_headers (T : String)
    (hT : py_strip T ≠ "") :
    (∃ a b : String, format_prompt T = a ++ T ++ b) ∧
    (∃ u0 u1 u2 u3 u4 u5 : String,
      format_prompt T =
        u0 ++ header1 ++ u1 ++ header2 ++ u2 ++ header3 ++ u3 ++ header4 ++ u4 ++
          header5 ++ u5) := by
  refine ⟨⟨prompt_template_before, prompt_template_suffix, rfl⟩,
    ⟨prompt_template_p0, prompt_template_p1, prompt_template_p2, prompt_template_p3,
      prompt_template_p4, prompt_template_p5 ++ T ++ prompt_template_suffix, ?_⟩⟩
  simp only [format_prompt, prompt_template_before, String.append_assoc]

/-- Witness for C1 at the scenario-1 transcript. -/
theorem C1_witness :
    py_strip scenario1 ≠ "" ∧
    ((∃ a b : String, format_prompt scenario1 = a ++ scenario1 ++ b) ∧
     (∃ u0 u1 u2 u3 u4 u5 : String,
       format_prompt scenario1 =
         u0 ++ header1 ++ u1 ++ header2 ++ u2 ++ header3 ++ u3 ++ header4 ++ u4 ++
           header5 ++ u5)) :=
  ⟨by decide, C1_prompt_contains_transcript_and_headers scenario1 (by decide)⟩

/-- C2: for blank (empty or whitespace-only) transcript input, a click does
not invoke the service (no outbound request), shows the validation warning,
and leaves the stored Report unchanged. -/
theorem C2_blank_input_no_request (svc : LLMRequest → ServiceOutcome)
    (input s0 : String) (h : py_strip input = "") :
    handle_click svc input s0 =
      { summary := s0, warning? := some warn_msg, requests := [] } := by
  simp [handle_click, h]

/-- Witness for C2 at a whitespace-only input mixing ASCII and Unicode
whitespace (tab, ideographic space U+3000, no-break space U+00A0). -/
theorem C2_witness :
    py_strip " \t\u3000\u00a0 " = "" ∧
    handle_click (svc_raises "boom") " \t\u3000\u00a0 " initial_summary =
      { summary := initial_summary, warning? := some warn_msg, requests := [] } :=
  ⟨by decide,
    C2_blank_input_no_request (svc_raises "boom") " \t\u3000\u00a0 " initial_summary
      (by decide)⟩

/-- C3: when the external call raises any error, `generate_summary` catches
it and returns `none` (never propagating the exception), the displayed
Report becomes the fixed failure message — a constant independent of the
error, so never the raw error object — and a subsequent click is handled
normally (here: a later successful call stores its text). -/
theorem C3_service_error_recovered (svc svc2 : LLMRequest → ServiceOutcome)
    (e input s0 input2 t : String)
    (hin : py_strip input ≠ "")
    (hsvc : svc (mkRequest input) = ServiceOutcome.raises e)
    (hin2 : py_strip input2 ≠ "") (ht : t ≠ "")
    (hsvc2 : svc2 (mkRequest input2) = ServiceOutcome.returns (some t)) :
    generate_summary svc input = none ∧
    (handle_click svc input s0).summary = fail_msg ∧
    (handle_click svc2 input2 (handle_click svc input s0).summary).summary = t := by
  have h1 : generate_summary svc input = none := by
    simp [generate_summary, hsvc]
  have h2 : (handle_click svc input s0).summary = fail_msg := by
    simp [handle_click, hin, h1]
  have h3 : generate_summary svc2 input2 = some t := by
    simp [generate_summary, hsvc2]
  refine ⟨h1, h2, ?_⟩
  simp [handle_click, hin2, h3, ht]

/-- Witness for C3: a mocked network exception, then a successful retry. -/
theorem C3_witness :
    (py_strip "log" ≠ "" ∧ ("report" : String) ≠ "") ∧
    (generate_summary (svc_raises "network error") "log" = none ∧
     (handle_click (svc_raises "network error") "log" initial_summary).summary =
       fail_msg ∧
     (handle_click (svc_returns (some "report")) "log"
         ((handle_click (svc_raises "network error") "log" initial_summary).summary)).summary =
       "report") :=
  ⟨⟨by decide, by decide⟩,
    C3_service_error_recovered (svc_raises "network error")
      (svc_returns (some "report")) "network error" "log" initial_summary "log"
      "report" (by decide) rfl (by decide) (by decide) rfl⟩

/-- C4 counterexample: a successful call whose generated text is the empty
string.  `generate_summary` does return that text verbatim, but the
displayed Report is the failure message, not the (empty) generated text —
so the claim's "the displayed Report equals that text exactly" fails. -/
theorem C4_counterexample :
    svc_returns (some "") (mkRequest "log") = ServiceOutcome.returns (some "") ∧
    generate_summary (svc_returns (some "")) "log" = some "" ∧
    (handle_click (svc_returns (some "")) "log" initial_summary).summary ≠ "" ∧
    (handle_click (svc_returns (some "")) "log" initial_summary).summary = fail_msg := by
  have hin : py_strip "log" ≠ "" := by decide
  have hsum : (handle_click (svc_returns (some "")) "log" initial_summary).summary =
      fail_msg := by
    simp [handle_click, hin, generate_summary, svc_returns]
  refine ⟨rfl, rfl, ?_, hsum⟩
  rw [hsum]
  decide

/-- C4 amended: for every successful generation call the Report Requester
returns the service's generated text verbatim, and whenever that text is
non-empty the displayed Report equals it exactly. -/
theorem C4_success_displayed (svc : LLMRequest → ServiceOutcome)
    (input s0 t : String) (hin : py_strip input ≠ "")
    (hsvc : svc (mkRequest input) = ServiceOutcome.returns (some t))
    (ht : t ≠ "") :
    generate_summary svc input = some t ∧
    (handle_click svc input s0).summary = t := by
  have h1 : generate_summary svc input = some t := by
    simp [generate_summary, hsvc]
  exact ⟨h1, by simp [handle_click, hin, h1, ht]⟩

/-- Witness for C4: the scenario-1 transcript with a mocked service returning
a fixed Markdown string. -/
theorem C4_witness :
    (py_strip scenario1 ≠ "" ∧ mock_markdown ≠ "") ∧
    (generate_summary (svc_returns (some mock_markdown)) scenario1 =
       some mock_markdown ∧
     (handle_click (svc_returns (some mock_markdown)) scenario1
         initial_summary).summary = mock_markdown) :=
  ⟨⟨by decide, by decide⟩,
    C4_success_displayed (svc_returns (some mock_markdown)) scenario1
      initial_summary mock_markdown (by decide) rfl (by decide)⟩

/-- C5 counterexample: with the API-key variable present but set to the
empty string, startup still halts, although the claim says a present
variable lets startup proceed. -/
theorem C5_counterexample :
    (some "" : Option String) ≠ none ∧ check_api_key (some "") = true :=
  ⟨by decide, rfl⟩

/-- C5 amended: startup halts exactly when the API-key environment variable
is absent or set to the empty string; with a present non-empty value it
proceeds. -/
theorem C5_api_key_gate (env : Option String) :
    check_api_key env = true ↔ (env = none ∨ env = some "") := by
  cases env with
  | none => simp [check_api_key]
  | some v => simp [check_api_key]

/-- C6: every request issued by a click uses the fixed model identifier
"gpt-4o-mini" and the fixed low sampling temperature 0.1, for all inputs
and invocations. -/
theorem C6_fixed_model_and_temperature (svc : LLMRequest → ServiceOutcome)
    (input s0 : String) (r : LLMRequest)
    (hr : r ∈ (handle_click svc input s0).requests) :
    r.model_name = "gpt-4o-mini" ∧ r.temperature = 1/10 := by
  unfold handle_click at hr
  by_cases h : py_strip input = ""
  · simp [h] at hr
  · simp [h] at hr
    subst hr
    exact ⟨rfl, rfl⟩

/-- Witness for C6: the one request of a non-blank click. -/
theorem C6_witness :
    mkRequest "log" ∈
      (handle_click (svc_raises "boom") "log" initial_summary).requests ∧
    ((mkRequest "log").model_name = "gpt-4o-mini" ∧
     (mkRequest "log").temperature = 1/10) := by
  have hin : py_strip "log" ≠ "" := by decide
  have hmem : mkRequest "log" ∈
      (handle_click (svc_raises "boom") "log" initial_summary).requests := by
    simp [handle_click, hin]
  exact ⟨hmem,
    C6_fixed_model_and_temperature (svc_raises "boom") "log" initial_summary
      (mkRequest "log") hmem⟩

/-- C7: the Prompt Builder surrounds the transcript with a fixed context
independent of the transcript — the transcript is inserted as-is (in
particular the builder is injective: no escaping collapses inputs) and the
prompt length is exactly the context length plus the transcript length (no
length limiting).  As a function of the transcript alone it is
deterministic by construction. -/
theorem C7_prompt_builder_as_is :
    (∃ a b : String, ∀ T : String, format_prompt T = a ++ T ++ b) ∧
    (∀ T : String,
      (format_prompt T).length =
        prompt_template_before.length + T.length + prompt_template_suffix.length) ∧
    Function.Injective format_prompt := by
  refine ⟨⟨prompt_template_before, prompt_template_suffix, fun T => rfl⟩,
    fun T => ?_, ?_⟩
  · simp [format_prompt, String.length_append]
  · intro a b h
    have hd := congrArg String.data h
    simp only [format_prompt, String.data_append, List.append_assoc] at hd
    exact String.ext (List.append_cancel_right (List.append_cancel_left hd))

/-- C8: if the example file is absent its placeholder message seeds the
input area; if present, its full content does. -/
theorem C8_example_file_seed :
    example_text none = missing_example_msg ∧
    ∀ c : String, example_text (some c) = c :=
  ⟨rfl, fun _ => rfl⟩

/-- C9: a successful call whose response has no `text` entry makes
`generate_summary` return the fixed fallback string (not an error
indicator); being non-empty, that fallback is stored and displayed as the
Report, instead of the failure message. -/
theorem C9_missing_text_field (svc : LLMRequest → ServiceOutcome)
    (input s0 : String) (hin : py_strip input ≠ "")
    (hsvc : svc (mkRequest input) = ServiceOutcome.returns none) :
    generate_summary svc input = some fallback_text ∧
    fallback_text ≠ "" ∧
    (handle_click svc input s0).summary = fallback_text ∧
    fallback_text ≠ fail_msg := by
  have h1 : generate_summary svc input = some fallback_text := by
    simp [generate_summary, hsvc]
  have hne : fallback_text ≠ "" := by decide
  refine ⟨h1, hne, ?_, by decide⟩
  simp [handle_click, hin, h1, hne]

/-- Witness for C9: a mocked response without a `text` entry. -/
theorem C9_witness :
    py_strip "log" ≠ "" ∧
    (generate_summary (svc_returns none) "log" = some fallback_text ∧
     fallback_text ≠ "" ∧
     (handle_click (svc_returns none) "log" initial_summary).summary =
       fallback_text ∧
     fallback_text ≠ fail_msg) :=
  ⟨by decide,
    C9_missing_text_field (svc_returns none) "log" initial_summary (by decide) rfl⟩

/-- C10: a successful call returning the empty string as generated text is
treated as a failure by the controller, which branches on truthiness: the
displayed Report becomes the fixed failure message, not the empty text. -/
theorem C10_empty_text_is_failure (svc : LLMRequest → ServiceOutcome)
    (input s0 : String) (hin : py_strip input ≠ "")
    (hsvc : svc (mkRequest input) = ServiceOutcome.returns (some "")) :
    generate_summary svc input = some "" ∧
    (handle_click svc input s0).summary = fail_msg := by
  have h1 : generate_summary svc input = some "" := by
    simp [generate_summary, hsvc]
  exact ⟨h1, by simp [handle_click, hin, h1]⟩

/-- Witness for C10: a mocked service returning an empty generated text. -/
theorem C10_witness :
    py_strip "chat" ≠ "" ∧
    (generate_summary (svc_returns (some "")) "chat" = some "" ∧
     (handle_click (svc_returns (some "")) "chat" initial_summary).summary =
       fail_msg) :=
  ⟨by decide,
    C10_empty_text_is_failure (svc_returns (some "")) "chat" initial_summary
      (by decide) rfl⟩

end WhatHappenToday
